import Mathlib

/- Verification development for the huefy terminal theming utility.

   Embedded components:
   - `ThemeManager.validate_theme` from `hue.py`: manifest-based theme
     integrity verification.
   - `AnsiEscapeCodeBuilder` from `src/huefy/esc_builder.py`: stateful
     ANSI escape code construction with hex/HSL color normalization.

   Python strings are modelled as Lean `String` (operating on `.data`
   character lists where that makes the Python operation explicit),
   Python ints as `Int`/`Nat`, Python floats as exact fractions
   (the arithmetic in `colorsys` is exact on the inputs of interest),
   the filesystem as an explicit read-only map, and Python exceptions
   as explicit error values threaded through return types. -/

namespace Huefy

/-- Decidable equality of `Except` results, so that concrete runs of the
embedded functions can be checked by `decide`. -/
instance {ε α : Type} [DecidableEq ε] [DecidableEq α] : DecidableEq (Except ε α) := fun x y =>
  match x, y with
  | .ok a, .ok b =>
    if h : a = b then .isTrue (by rw [h])
    else .isFalse (by intro hh; cases hh; exact h rfl)
  | .error a, .error b =>
    if h : a = b then .isTrue (by rw [h])
    else .isFalse (by intro hh; cases hh; exact h rfl)
  | .ok _, .error _ => .isFalse (by intro hh; cases hh)
  | .error _, .ok _ => .isFalse (by intro hh; cases hh)

/-! ## Python string primitives used by the source -/

/-- Models Python `str.strip()`: drop leading and trailing whitespace. -/
def pyStrip (s : String) : String :=
  String.mk (((s.data.dropWhile Char.isWhitespace).reverse.dropWhile Char.isWhitespace).reverse)

/-- Accumulator loop for `splitWs`: groups maximal runs of non-whitespace
characters, discarding whitespace, like Python `str.split()` with no
arguments. -/
def splitWsAux : List Char → List Char → List (List Char)
  | [], acc => if acc = [] then [] else [acc.reverse]
  | c :: rest, acc =>
    if c.isWhitespace then
      if acc = [] then splitWsAux rest []
      else acc.reverse :: splitWsAux rest []
    else splitWsAux rest (c :: acc)

/-- Models Python `str.split()` (no separator argument): split on runs of
whitespace, never producing empty tokens. -/
def splitWs (s : String) : List String :=
  (splitWsAux s.data []).map String.mk

/-- Models `os.path.join(a, b)` for two components on a POSIX system:
an absolute second component replaces the first; otherwise a separator
is inserted unless the first component is empty or already ends in one. -/
def osPathJoin (a b : String) : String :=
  if b.data.head? = some '/' then b
  else if a = "" then b
  else if a.data.getLast? = some '/' then a ++ b
  else a ++ "/" ++ b

/-! ## Manifest verifier (`hue.py`, `ThemeManager.validate_theme`) -/

/-- The filesystem visible to `validate_theme`, as a read-only map:
`pathExists` models `os.path.exists`; `readLines p = some ls` models a
successful `open(p, 'r')` yielding lines `ls` (with `none` an `IOError`);
`readBytes p = some bs` models a successful `open(p, 'rb').read()`
yielding bytes `bs` (with `none` an `IOError`). -/
structure FileSystem where
  pathExists : String → Bool
  readLines : String → Option (List String)
  readBytes : String → Option (List Nat)

/-- The one uncaught exception `validate_theme` can raise: the
`ValueError` from unpacking `line.split()` into exactly two names. -/
inductive VErr where
  | valueError
deriving DecidableEq

/-- One iteration of the manifest scanning loop of `validate_theme`
(`hue.py` lines 50-59): `none` means the loop continues to the next line
(blank line, or a well-formed line naming a different file); `some r`
means the loop's body returns `r` or raises.  A non-blank line is
unpacked into exactly two whitespace-separated tokens (`ValueError`
otherwise); on a filename match the theme file's bytes are hashed with
`sha256hex` and hex digests are compared by string equality, an
`IOError` reading the theme file being caught by the surrounding
handler and yielding `False`. -/
def lineStep (fs : FileSystem) (sha256hex : List Nat → String)
    (themesDir themeFile line : String) : Option (Except VErr Bool) :=
  if pyStrip line ≠ "" then
    match splitWs line with
    | [name, expectedHash] =>
      if themeFile = osPathJoin themesDir name then
        some (match fs.readBytes themeFile with
          | none => .ok false
          | some bytes =>
            if sha256hex bytes ≠ expectedHash then .ok false else .ok true)
      else none
    | _ => some (.error .valueError)
  else none

/-- The manifest scanning loop of `validate_theme` (`hue.py` lines 49-61):
runs `lineStep` on each line in file order, returning the first line's
verdict that terminates the loop, and `False` after scanning the whole
manifest without a filename match. -/
def validateLines (fs : FileSystem) (sha256hex : List Nat → String)
    (themesDir themeFile : String) : List String → Except VErr Bool
  | [] => .ok false
  | line :: rest =>
    match lineStep fs sha256hex themesDir themeFile line with
    | some r => r
    | none => validateLines fs sha256hex themesDir themeFile rest

/-- Models `ThemeManager.validate_theme` (`hue.py` lines 29-64) applied to
an explicit theme file path.  `sha256hex` abstracts
`hashlib.sha256(...).hexdigest()`, which lives outside this repository.
A missing theme file, an unreadable manifest, a hash mismatch or an
unmatched filename all yield `.ok false`; a malformed manifest line
propagates as `.error .valueError`. -/
def validate_theme (fs : FileSystem) (sha256hex : List Nat → String)
    (themesDir manifestFile themeFile : String) : Except VErr Bool :=
  let manifestPath := osPathJoin themesDir manifestFile
  if !fs.pathExists themeFile then .ok false
  else
    match fs.readLines manifestPath with
    | none => .ok false
    | some lines => validateLines fs sha256hex themesDir themeFile lines

/-- The digest a single manifest line records for the target path:
`some h` when the line is non-blank, splits into exactly two tokens, and
its filename joined with the themes directory equals the target path. -/
def manifestLineHash (themesDir themeFile line : String) : Option String :=
  if pyStrip line ≠ "" then
    match splitWs line with
    | [name, h] =>
      if themeFile = osPathJoin themesDir name then some h else none
    | _ => none
  else none

/-- The digest recorded on the first manifest line whose filename, joined
with the themes directory, equals the target path (skipping blank lines;
a line that does not split into two tokens records nothing). -/
def findManifestHash (themesDir themeFile : String) : List String → Option String
  | [] => none
  | line :: rest =>
    match manifestLineHash themesDir themeFile line with
    | some h => some h
    | none => findManifestHash themesDir themeFile rest

/-- A manifest line the scanning loop passes over without returning or
raising: blank, or exactly two tokens naming a different theme file. -/
def lineSkips (themesDir themeFile line : String) : Bool :=
  (pyStrip line == "") ||
    (match splitWs line with
     | [a, _b] => !(themeFile == osPathJoin themesDir a)
     | _ => false)

example : validateLines ⟨fun _ => true, fun _ => none, fun _ => some [1]⟩
    (fun _ => "aa") "d" "d/t" ["t aa"] = .ok true := rfl

example : validate_theme ⟨fun _ => false, fun _ => none, fun _ => none⟩
    (fun _ => "aa") "d" "MANIFEST" "d/t" = .ok false := rfl

/-! ## Color normalization (`esc_builder.py`, `_normalize_color`) -/

/-- The distinct `ValueError` raise sites reachable from
`AnsiEscapeCodeBuilder` methods, plus the `IndexError` from indexing a
too-short HSL component list. -/
inductive BuildErr where
  /-- `"Invalid HEX color format."` (hex string of length other than 3 or 6). -/
  | invalidHexFormat
  /-- `ValueError` raised by `int(..., 16)` on a non-hex-digit slice. -/
  | intLiteralError
  /-- `ValueError` raised by `float(...)` on an unparsable HSL component. -/
  | floatLiteralError
  /-- `IndexError` from `hsl[1]` or `hsl[2]` when the split yields fewer
  than three components. -/
  | indexError
  /-- `"Unsupported color format. Use HEX or HSL."` -/
  | unsupportedColorFormat
  /-- `"Invalid color specification. Provide either a color string or RGB tuple."` -/
  | invalidColorSpec
  /-- `"Unsupported theme. Use 'dark' or 'light'."` -/
  | unsupportedTheme
deriving DecidableEq

/-- Value of one hexadecimal digit, case-insensitive. -/
def hexDigitVal (c : Char) : Option Nat :=
  if '0' ≤ c ∧ c ≤ '9' then some (c.toNat - 48)
  else if 'a' ≤ c ∧ c ≤ 'f' then some (c.toNat - 87)
  else if 'A' ≤ c ∧ c ≤ 'F' then some (c.toNat - 55)
  else none

/-- Models Python `int(s, 16)` on a plain string of hexadecimal digits:
`none` when the string is empty or contains a non-hex-digit character. -/
def hexNat (cs : List Char) : Option Nat :=
  if cs = [] then none
  else cs.foldlM (fun acc c => (hexDigitVal c).map (fun v => acc * 16 + v)) 0

/-- Models Python `str.split(sep)` for a single-character separator:
splits at every occurrence, keeping empty pieces (`"".split(sep)` is
`[""]`). -/
def splitChar (sep : Char) : List Char → List (List Char)
  | [] => [[]]
  | c :: rest =>
    if c = sep then [] :: splitChar sep rest
    else
      match splitChar sep rest with
      | h :: t => (c :: h) :: t
      | [] => [[c]]

/-- Models Python `str.strip('%')`: drop leading and trailing `%` signs. -/
def stripPercent (cs : List Char) : List Char :=
  ((cs.dropWhile (fun c => c = '%')).reverse.dropWhile (fun c => c = '%')).reverse

/-- Digit list to a natural number, most significant digit first. -/
def natOfDigits (cs : List Char) : Nat :=
  cs.foldl (fun acc c => acc * 10 + (c.toNat - 48)) 0

/-- Exact fractions with a positive denominator, used to model the real
arithmetic the Python code performs on floats.  Fractions are kept
unnormalized so that every operation is plain integer arithmetic the
kernel can evaluate.  All constructors below preserve `0 < den`. -/
structure Frac where
  num : Int
  den : Int
deriving DecidableEq

instance : OfNat Frac n := ⟨⟨n, 1⟩⟩
instance : Neg Frac := ⟨fun a => ⟨-a.num, a.den⟩⟩
instance : Add Frac := ⟨fun a b => ⟨a.num * b.den + b.num * a.den, a.den * b.den⟩⟩
instance : Sub Frac := ⟨fun a b => ⟨a.num * b.den - b.num * a.den, a.den * b.den⟩⟩
instance : Mul Frac := ⟨fun a b => ⟨a.num * b.num, a.den * b.den⟩⟩

/-- Division of a fraction by a positive integer constant (the only
divisions the color pipeline performs). -/
def Frac.divNat (a : Frac) (n : Nat) : Frac := ⟨a.num, a.den * n⟩

/-- Value order on fractions with positive denominators. -/
instance : LT Frac := ⟨fun a b => a.num * b.den < b.num * a.den⟩

instance : LE Frac := ⟨fun a b => a.num * b.den ≤ b.num * a.den⟩

instance (a b : Frac) : Decidable (a < b) :=
  inferInstanceAs (Decidable (a.num * b.den < b.num * a.den))

instance (a b : Frac) : Decidable (a ≤ b) :=
  inferInstanceAs (Decidable (a.num * b.den ≤ b.num * a.den))

/-- Value equality with zero (`x == 0.0` in Python): for a positive
denominator this is exactly a zero numerator. -/
def Frac.isZero (a : Frac) : Bool := a.num == 0

/-- Floor of a fraction with positive denominator. -/
def Frac.floor (a : Frac) : Int := a.num.fdiv a.den

/-- Models Python `int(x)` on a float: truncation toward zero. -/
def pyInt (q : Frac) : Int :=
  if q.num < 0 then -Frac.floor (-q) else Frac.floor q

/-- Models Python `float(s)` on a plain decimal literal — optional sign,
integer digits, optional fractional part — as an exact fraction.
Exponent forms, `inf`/`nan` and surrounding whitespace, which the HSL
strings of interest never use, are not modelled. -/
def parsePyFloat (cs : List Char) : Option Frac :=
  let (sign, cs) : Int × List Char :=
    match cs with
    | '-' :: rest => (-1, rest)
    | '+' :: rest => (1, rest)
    | _ => (1, cs)
  let ip := cs.takeWhile Char.isDigit
  let rest := cs.dropWhile Char.isDigit
  match rest with
  | [] => if ip = [] then none else some ⟨sign * natOfDigits ip, 1⟩
  | '.' :: rest2 =>
    let fp := rest2.takeWhile Char.isDigit
    let rest3 := rest2.dropWhile Char.isDigit
    if rest3 ≠ [] then none
    else if ip = [] ∧ fp = [] then none
    else some ⟨sign * (natOfDigits ip * 10 ^ fp.length + natOfDigits fp), (10 : Nat) ^ fp.length⟩
  | _ => none

/-- Helper `_v` of `colorsys.hls_to_rgb` (Python standard library), over
exact fractions: the piecewise-linear hue ramp between the two luminance
levels `m1` and `m2`.  `hue % 1.0` is `hue - ⌊hue⌋`. -/
def colorsys_v (m1 m2 hue : Frac) : Frac :=
  let hue := hue - ⟨Frac.floor hue, 1⟩
  if hue < ⟨1, 6⟩ then m1 + (m2 - m1) * hue * 6
  else if hue < ⟨1, 2⟩ then m2
  else if hue < ⟨2, 3⟩ then m1 + (m2 - m1) * (⟨2, 3⟩ - hue) * 6
  else m1

/-- Models `colorsys.hls_to_rgb(h, l, s)` (Python standard library) over
exact fractions: the standard HSL→RGB transform on [0,1] channels. -/
def colorsys_hls_to_rgb (h l s : Frac) : Frac × Frac × Frac :=
  if s.isZero then (l, l, l)
  else
    let m2 := if l ≤ ⟨1, 2⟩ then l * (1 + s) else l + s - l * s
    let m1 := 2 * l - m2
    (colorsys_v m1 m2 (h + ⟨1, 3⟩), colorsys_v m1 m2 h, colorsys_v m1 m2 (h - ⟨1, 3⟩))

/-- The arithmetic `_normalize_color` performs on parsed HSL components
(`esc_builder.py` lines 211-213): hue divided by 360, saturation and
lightness percentages divided by 100, the `colorsys` transform, then
each channel scaled by 255 and truncated to an integer by `int(...)`. -/
def hslPipeline (h s l : Frac) : Int × Int × Int :=
  let (r, g, b) := colorsys_hls_to_rgb (h.divNat 360) (l.divNat 100) (s.divNat 100)
  (pyInt (r * 255), pyInt (g * 255), pyInt (b * 255))

/-- Models `AnsiEscapeCodeBuilder._normalize_color` (`esc_builder.py`
lines 186-217).  A string starting with `#` is stripped of all leading
`#` characters (`lstrip('#')`) and parsed as 6-digit or 3-digit
(digit-duplicated) hex; a string starting with `hsl(` has its last
character dropped (`color[4:-1]`), is split on commas, and its first
three components are parsed as float degrees and stripped-percent
floats; anything else is an unsupported format. -/
def normalize_color (color : String) : Except BuildErr (Int × Int × Int) :=
  match color.data with
  | '#' :: rest =>
    let cs := rest.dropWhile (fun c => c = '#')
    if cs.length = 6 then
      match hexNat (cs.take 2), hexNat ((cs.drop 2).take 2), hexNat ((cs.drop 4).take 2) with
      | some r, some g, some b => .ok (r, g, b)
      | _, _, _ => .error .intLiteralError
    else if cs.length = 3 then
      match cs.map (fun c => hexNat [c, c]) with
      | [some r, some g, some b] => .ok (r, g, b)
      | _ => .error .intLiteralError
    else .error .invalidHexFormat
  | 'h' :: 's' :: 'l' :: '(' :: inner =>
    match splitChar ',' inner.dropLast with
    | hS :: sS :: lS :: _ =>
      match parsePyFloat hS, parsePyFloat (stripPercent sS), parsePyFloat (stripPercent lS) with
      | some h, some s, some l => .ok (hslPipeline h s l)
      | _, _, _ => .error .floatLiteralError
    | _ => .error .indexError
  | _ => .error .unsupportedColorFormat

example : normalize_color "#fff" = .ok (255, 255, 255) := rfl
example : normalize_color "#072448" = .ok (7, 36, 72) := rfl
example : normalize_color "hsl(0,100%,50%)" = .ok (255, 0, 0) := by decide
example : normalize_color "hsl(0,0%,50%)" = .ok (127, 127, 127) := by decide

/-! ## Builder state and methods (`esc_builder.py`, `AnsiEscapeCodeBuilder`)

Python mutates the builder object in place and signals errors by raising;
each method is modelled as a function from the pre-call state to the
post-call state paired with the exception raised, if any, so that the
state a failed call leaves behind is observable. -/

/-- The mutable state of an `AnsiEscapeCodeBuilder` instance
(`esc_builder.py` lines 37-41): appended SGR style tokens, the optional
foreground and background color tokens, the theme tag, and the negative
flag. -/
structure AnsiEscapeCodeBuilder where
  styles : List String
  fg_color : Option String
  bg_color : Option String
  theme : String
  negative : Bool
deriving DecidableEq

/-- Python truthiness of an optional string attribute (`if self._fg_color:`):
present and non-empty. -/
def optStrTruthy : Option String → Bool
  | none => false
  | some s => !(s.data.isEmpty)

/-- The class attribute `DEFAULT_COLORS` (`esc_builder.py` lines 19-28),
as the lookup `DEFAULT_COLORS.get(theme)`: the `(fg, bg)` hex pair for
the two known themes, `none` otherwise. -/
def DEFAULT_COLORS (theme : String) : Option (String × String) :=
  if theme = "dark" then some ("#e0e0e0", "#1e1e1e")
  else if theme = "light" then some ("#2e2e2e", "#f0f0f0")
  else none

/-- The true-color foreground SGR token `f'38;2;{r};{g};{b}'`. -/
def fgToken (r g b : Int) : String :=
  "38;2;" ++ toString r ++ ";" ++ toString g ++ ";" ++ toString b

/-- The true-color background SGR token `f'48;2;{r};{g};{b}'`. -/
def bgToken (r g b : Int) : String :=
  "48;2;" ++ toString r ++ ";" ++ toString g ++ ";" ++ toString b

/-- The shared argument resolution of `set_fg_color`/`set_bg_color`
(`esc_builder.py` lines 111-116 and 135-140): a truthy `color` string is
normalized; otherwise a supplied `rgb` tuple (always truthy as a
3-tuple) is unpacked; otherwise `ValueError`. -/
def resolveColor (color : Option String) (rgb : Option (Int × Int × Int)) :
    Except BuildErr (Int × Int × Int) :=
  match color with
  | some c =>
    if c.data.isEmpty then
      match rgb with
      | some t => .ok t
      | none => .error .invalidColorSpec
    else normalize_color c
  | none =>
    match rgb with
    | some t => .ok t
    | none => .error .invalidColorSpec

/-- Models `set_fg_color` (`esc_builder.py` lines 97-119): on success
stores the foreground token and returns the updated state; a raise
leaves the state unchanged. -/
def set_fg_color (b : AnsiEscapeCodeBuilder) (color : Option String)
    (rgb : Option (Int × Int × Int)) : AnsiEscapeCodeBuilder × Option BuildErr :=
  match resolveColor color rgb with
  | .ok (r, g, bl) => ({ b with fg_color := some (fgToken r g bl) }, none)
  | .error e => (b, some e)

/-- Models `set_bg_color` (`esc_builder.py` lines 121-143): symmetric to
`set_fg_color`, storing the background token. -/
def set_bg_color (b : AnsiEscapeCodeBuilder) (color : Option String)
    (rgb : Option (Int × Int × Int)) : AnsiEscapeCodeBuilder × Option BuildErr :=
  match resolveColor color rgb with
  | .ok (r, g, bl) => ({ b with bg_color := some (bgToken r g bl) }, none)
  | .error e => (b, some e)

/-- Models `_set_default_colors` (`esc_builder.py` lines 145-154): look
up the current theme tag in `DEFAULT_COLORS`; raise `ValueError` on a
miss (leaving colors untouched), otherwise set both default colors. -/
def set_default_colors (b : AnsiEscapeCodeBuilder) :
    AnsiEscapeCodeBuilder × Option BuildErr :=
  match DEFAULT_COLORS b.theme with
  | none => (b, some .unsupportedTheme)
  | some (fg, bg) =>
    match set_fg_color b (some fg) none with
    | (b1, some e) => (b1, some e)
    | (b1, none) => set_bg_color b1 (some bg) none

/-- The attribute initialization of `__init__` (`esc_builder.py` lines
37-41), before `_set_default_colors` runs. -/
def initState (theme : String) : AnsiEscapeCodeBuilder :=
  { styles := [], fg_color := none, bg_color := none, theme := theme, negative := false }

/-- Models `__init__` (`esc_builder.py` lines 30-44): initialize the
attributes, then set the theme's default colors; a raise in
`_set_default_colors` escapes the constructor, so no object is produced. -/
def mkBuilder (theme : String) : Except BuildErr AnsiEscapeCodeBuilder :=
  match set_default_colors (initState theme) with
  | (b, none) => .ok b
  | (_, some e) => .error e

/-- Models `set_theme` (`esc_builder.py` lines 156-171): overwrite the
theme tag first, then re-derive the default colors — so a raise for an
unknown name leaves the new (invalid) tag in place with the old colors. -/
def set_theme (b : AnsiEscapeCodeBuilder) (theme : String) :
    AnsiEscapeCodeBuilder × Option BuildErr :=
  set_default_colors { b with theme := theme }

/-- Models `set_negative` (`esc_builder.py` lines 173-184). -/
def set_negative (b : AnsiEscapeCodeBuilder) (enabled : Bool) : AnsiEscapeCodeBuilder :=
  { b with negative := enabled }

/-- Models `set_bold` (`esc_builder.py` lines 46-61): always appends a
token, `'1'` to enable or `'22'` to reset. -/
def set_bold (b : AnsiEscapeCodeBuilder) (enabled : Bool) : AnsiEscapeCodeBuilder :=
  { b with styles := b.styles ++ [if enabled then "1" else "22"] }

/-- Models `set_italic` (`esc_builder.py` lines 63-78). -/
def set_italic (b : AnsiEscapeCodeBuilder) (enabled : Bool) : AnsiEscapeCodeBuilder :=
  { b with styles := b.styles ++ [if enabled then "3" else "23"] }

/-- Models `set_underline` (`esc_builder.py` lines 80-95). -/
def set_underline (b : AnsiEscapeCodeBuilder) (enabled : Bool) : AnsiEscapeCodeBuilder :=
  { b with styles := b.styles ++ [if enabled then "4" else "24"] }

/-- Models Python `';'.join(codes)`. -/
def pyJoin (sep : String) : List String → String
  | [] => ""
  | [x] => x
  | x :: xs => x ++ sep ++ pyJoin sep xs

/-- Models `build` (`esc_builder.py` lines 219-237).  When the negative
flag is set the stored foreground and background tokens are swapped *in
place* (the swap persists in the returned state); then the truthy tokens
and the style tokens are joined in order and wrapped as
`'\x1B[' ... 'm'`. -/
def build (b : AnsiEscapeCodeBuilder) : AnsiEscapeCodeBuilder × String :=
  let b :=
    if b.negative then { b with fg_color := b.bg_color, bg_color := b.fg_color }
    else b
  let codes :=
    (if optStrTruthy b.fg_color then [b.fg_color.getD ""] else []) ++
    (if optStrTruthy b.bg_color then [b.bg_color.getD ""] else []) ++
    b.styles
  (b, "\x1B[" ++ pyJoin ";" codes ++ "m")

example : mkBuilder "dark" =
    .ok ⟨[], some "38;2;224;224;224", some "48;2;30;30;30", "dark", false⟩ := rfl

example : mkBuilder "light" =
    .ok ⟨[], some "38;2;46;46;46", some "48;2;240;240;240", "light", false⟩ := rfl

example :
    (build ((set_fg_color ⟨[], some "38;2;224;224;224", some "48;2;30;30;30", "dark", false⟩
      none (some (1, 2, 3))).1)).2 = "\x1B[38;2;1;2;3;48;2;30;30;30m" := rfl

/-! ## General string lemmas -/

lemma data_append (s t : String) : (s ++ t).data = s.data ++ t.data := by
  cases s
  cases t
  rfl

lemma pyJoin_cons_cons (sep x y : String) (t : List String) :
    pyJoin sep (x :: y :: t) = x ++ sep ++ pyJoin sep (y :: t) := rfl

/-! ## Lemmas about the manifest scanning loop -/

lemma lineStep_eq_none_of_skips (fs : FileSystem) (sha : List Nat → String)
    (dir tf line : String) (h : lineSkips dir tf line = true) :
    lineStep fs sha dir tf line = none := by
  unfold lineSkips at h
  unfold lineStep
  by_cases hb : pyStrip line = ""
  · simp [hb]
  · simp only [hb, Bool.or_eq_true, beq_iff_eq, or_false, false_or] at h
    rcases hsp : splitWs line with _ | ⟨a, _ | ⟨b, _ | ⟨c, t⟩⟩⟩ <;>
      rw [hsp] at h <;> simp at h
    simp [hb, hsp, h]

lemma lineStep_eq_some_error (fs : FileSystem) (sha : List Nat → String)
    (dir tf line : String) (hb : pyStrip line ≠ "")
    (hlen : (splitWs line).length ≠ 2) :
    lineStep fs sha dir tf line = some (.error .valueError) := by
  unfold lineStep
  rcases hsp : splitWs line with _ | ⟨a, _ | ⟨b, _ | ⟨c, t⟩⟩⟩ <;>
    rw [hsp] at hlen <;> simp [hb, hsp] at hlen ⊢

lemma manifestLineHash_some (dir tf line d : String)
    (h : manifestLineHash dir tf line = some d) :
    pyStrip line ≠ "" ∧ ∃ name, splitWs line = [name, d] ∧ tf = osPathJoin dir name := by
  unfold manifestLineHash at h
  by_cases hb : pyStrip line = ""
  · simp [hb] at h
  · refine ⟨hb, ?_⟩
    rcases hsp : splitWs line with _ | ⟨a, _ | ⟨b, _ | ⟨c, t⟩⟩⟩ <;>
      rw [hsp] at h <;> simp [hb] at h
    exact ⟨a, by simp [h.2], h.1⟩

lemma lineStep_of_lineHash (fs : FileSystem) (sha : List Nat → String)
    (dir tf line d : String) (h : manifestLineHash dir tf line = some d) :
    lineStep fs sha dir tf line =
      some (match fs.readBytes tf with
        | none => .ok false
        | some bytes => if sha bytes ≠ d then .ok false else .ok true) := by
  obtain ⟨hb, name, hsp, ht⟩ := manifestLineHash_some dir tf line d h
  unfold lineStep
  simp [hb, hsp, ht]

lemma lineStep_none_of_lineHash_none (fs : FileSystem) (sha : List Nat → String)
    (dir tf line : String) (hwf : pyStrip line ≠ "" → (splitWs line).length = 2)
    (h : manifestLineHash dir tf line = none) :
    lineStep fs sha dir tf line = none := by
  by_cases hb : pyStrip line = ""
  · unfold lineStep
    simp [hb]
  · have hlen := hwf hb
    rcases hsp : splitWs line with _ | ⟨a, _ | ⟨b, _ | ⟨c, t⟩⟩⟩
    · rw [hsp] at hlen
      simp at hlen
    · rw [hsp] at hlen
      simp at hlen
    · unfold manifestLineHash at h
      rw [hsp] at h
      simp [hb] at h
      unfold lineStep
      simp [hb, hsp, h]
    · rw [hsp] at hlen
      simp at hlen

lemma validateLines_error_after_skips (fs : FileSystem) (sha : List Nat → String)
    (dir tf bad : String) (pre rest : List String)
    (hskip : ∀ l ∈ pre, lineSkips dir tf l = true)
    (hb : pyStrip bad ≠ "") (hlen : (splitWs bad).length ≠ 2) :
    validateLines fs sha dir tf (pre ++ bad :: rest) = .error .valueError := by
  induction pre with
  | nil =>
    rw [List.nil_append]
    unfold validateLines
    rw [lineStep_eq_some_error fs sha dir tf bad hb hlen]
  | cons l pre2 ih =>
    rw [List.cons_append]
    unfold validateLines
    rw [lineStep_eq_none_of_skips fs sha dir tf l (hskip l (by simp))]
    exact ih (fun x hx => hskip x (by simp [hx]))

lemma validateLines_all_skip (fs : FileSystem) (sha : List Nat → String)
    (dir tf : String) (lines : List String)
    (hskip : ∀ l ∈ lines, lineSkips dir tf l = true) :
    validateLines fs sha dir tf lines = .ok false := by
  induction lines with
  | nil => rfl
  | cons l rest ih =>
    unfold validateLines
    rw [lineStep_eq_none_of_skips fs sha dir tf l (hskip l (by simp))]
    exact ih (fun x hx => hskip x (by simp [hx]))

lemma validateLines_found (fs : FileSystem) (sha : List Nat → String)
    (dir tf : String) (lines : List String) (expected : String) (bytes : List Nat)
    (hwf : ∀ l ∈ lines, pyStrip l ≠ "" → (splitWs l).length = 2)
    (hfind : findManifestHash dir tf lines = some expected)
    (hbytes : fs.readBytes tf = some bytes) :
    (validateLines fs sha dir tf lines = .ok true ↔ sha bytes = expected) := by
  induction lines with
  | nil => exact absurd hfind (by simp [findManifestHash])
  | cons l rest ih =>
    unfold validateLines
    unfold findManifestHash at hfind
    cases hml : manifestLineHash dir tf l with
    | some d =>
      rw [hml] at hfind
      have hd : d = expected := Option.some_inj.mp hfind
      rw [lineStep_of_lineHash fs sha dir tf l d hml, hbytes, hd]
      by_cases hh : sha bytes = expected
      · simp [hh]
      · simp [hh]
    | none =>
      rw [hml] at hfind
      rw [lineStep_none_of_lineHash_none fs sha dir tf l (hwf l (by simp)) hml]
      exact ih (fun x hx h => hwf x (by simp [hx]) h) hfind

/-! ## Claims about the manifest verifier -/

/-- C1: for a theme file that exists on disk, with a readable manifest
whose non-blank lines each split into exactly two tokens, where some
line's filename joined with the themes directory equals the target path,
and with readable theme file bytes, `validate_theme` returns `True` iff
the digest of those bytes (under the hash function standing in for
SHA-256) is string-equal to the digest recorded on the first matching
manifest line. -/
theorem validate_theme_true_iff_hash_matches (fs : FileSystem)
    (sha256hex : List Nat → String) (dir mf tf expected : String)
    (lines : List String) (bytes : List Nat)
    (hex : fs.pathExists tf = true)
    (hml : fs.readLines (osPathJoin dir mf) = some lines)
    (hwf : ∀ l ∈ lines, pyStrip l ≠ "" → (splitWs l).length = 2)
    (hfind : findManifestHash dir tf lines = some expected)
    (hbytes : fs.readBytes tf = some bytes) :
    (validate_theme fs sha256hex dir mf tf = .ok true ↔ sha256hex bytes = expected) := by
  unfold validate_theme
  rw [hex]
  simp only [Bool.not_true, Bool.false_eq_true, if_false, hml]
  exact validateLines_found fs sha256hex dir tf lines expected bytes hwf hfind hbytes

/-- Concrete filesystem for exercising a successful verification: one
theme file `themes.d/monokai` with bytes `[1, 2, 3]` and a manifest
recording digest `abc123` for it. -/
def fsMatch : FileSystem :=
  ⟨fun p => p == "themes.d/monokai",
   fun p => if p == "themes.d/MANIFEST" then some ["monokai abc123"] else none,
   fun p => if p == "themes.d/monokai" then some [1, 2, 3] else none⟩

/-- Stand-in hash function mapping bytes `[1, 2, 3]` to digest `abc123`. -/
def shaStub : List Nat → String :=
  fun bs => if bs == [1, 2, 3] then "abc123" else "ffff"

/-- Witness for C1 at a concrete matching manifest. -/
theorem validate_theme_true_iff_hash_matches_witness :
    (validate_theme fsMatch shaStub "themes.d" "MANIFEST" "themes.d/monokai" = .ok true ↔
      shaStub [1, 2, 3] = "abc123") :=
  validate_theme_true_iff_hash_matches fsMatch shaStub "themes.d" "MANIFEST"
    "themes.d/monokai" "abc123" ["monokai abc123"] [1, 2, 3]
    (by decide) (by decide) (by decide) (by decide) (by decide)

/-- C6: when the theme file does not exist on disk, `validate_theme`
returns `False` whatever the manifest holds — the statement quantifies
over every filesystem with the path absent, so the manifest is never
consulted. -/
theorem validate_theme_false_of_missing_file (fs : FileSystem)
    (sha256hex : List Nat → String) (dir mf tf : String)
    (h : fs.pathExists tf = false) :
    validate_theme fs sha256hex dir mf tf = .ok false := by
  unfold validate_theme
  rw [h]
  rfl

/-- Concrete filesystem where the theme file is absent but the manifest
is readable and records a digest for it. -/
def fsMissing : FileSystem :=
  ⟨fun _ => false, fun _ => some ["ghost abc123"], fun _ => none⟩

/-- Witness for C6: missing file, readable manifest, result `False`. -/
theorem validate_theme_false_of_missing_file_witness :
    validate_theme fsMissing shaStub "themes.d" "MANIFEST" "themes.d/ghost" = .ok false :=
  validate_theme_false_of_missing_file fsMissing shaStub "themes.d" "MANIFEST"
    "themes.d/ghost" rfl

/-- C7: when the theme file exists but every manifest line is blank or
names a different file, `validate_theme` scans the whole manifest and
returns `False`, for every hash function — in particular even when the
file's digest equals a digest recorded under another name. -/
theorem validate_theme_false_of_no_match (fs : FileSystem)
    (sha256hex : List Nat → String) (dir mf tf : String) (lines : List String)
    (hex : fs.pathExists tf = true)
    (hml : fs.readLines (osPathJoin dir mf) = some lines)
    (hskip : ∀ l ∈ lines, lineSkips dir tf l = true) :
    validate_theme fs sha256hex dir mf tf = .ok false := by
  unfold validate_theme
  rw [hex]
  simp only [Bool.not_true, Bool.false_eq_true, if_false, hml]
  exact validateLines_all_skip fs sha256hex dir tf lines hskip

/-- Concrete filesystem where `themes.d/mytheme` exists with bytes
`[1, 2, 3]` (digest `abc123` under `shaStub`) and the manifest records
exactly that digest, but under the name `other`. -/
def fsOtherName : FileSystem :=
  ⟨fun p => p == "themes.d/mytheme",
   fun p => if p == "themes.d/MANIFEST" then some ["other abc123", ""] else none,
   fun p => if p == "themes.d/mytheme" then some [1, 2, 3] else none⟩

/-- Witness for C7: the file's own digest appears in the manifest under
a different name, and verification still returns `False`. -/
theorem validate_theme_false_of_no_match_witness :
    validate_theme fsOtherName shaStub "themes.d" "MANIFEST" "themes.d/mytheme" = .ok false :=
  validate_theme_false_of_no_match fsOtherName shaStub "themes.d" "MANIFEST"
    "themes.d/mytheme" ["other abc123", ""] (by decide) (by decide) (by decide)

/-- C5: error handling of the manifest scan.  First, an unreadable
manifest is caught and turned into a `False` result.  Second, a
non-blank manifest line that does not split into exactly two tokens —
reached after lines that are blank or well-formed with a different
filename — raises a `ValueError` that propagates out of the call. -/
theorem validate_theme_error_handling :
    (∀ (fs : FileSystem) (sha256hex : List Nat → String) (dir mf tf : String),
      fs.pathExists tf = true →
      fs.readLines (osPathJoin dir mf) = none →
      validate_theme fs sha256hex dir mf tf = .ok false) ∧
    (∀ (fs : FileSystem) (sha256hex : List Nat → String) (dir mf tf bad : String)
      (pre rest : List String),
      fs.pathExists tf = true →
      fs.readLines (osPathJoin dir mf) = some (pre ++ bad :: rest) →
      (∀ l ∈ pre, lineSkips dir tf l = true) →
      pyStrip bad ≠ "" →
      (splitWs bad).length ≠ 2 →
      validate_theme fs sha256hex dir mf tf = .error .valueError) := by
  constructor
  · intro fs sha dir mf tf hex hml
    unfold validate_theme
    rw [hex]
    simp only [Bool.not_true, Bool.false_eq_true, if_false, hml]
  · intro fs sha dir mf tf bad pre rest hex hml hskip hb hlen
    unfold validate_theme
    rw [hex]
    simp only [Bool.not_true, Bool.false_eq_true, if_false, hml]
    exact validateLines_error_after_skips fs sha dir tf bad pre rest hskip hb hlen

/-- Concrete filesystem whose manifest cannot be opened. -/
def fsUnreadable : FileSystem :=
  ⟨fun _ => true, fun _ => none, fun _ => some [1, 2, 3]⟩

/-- Concrete filesystem whose manifest holds a blank line followed by a
three-token line. -/
def fsMalformed : FileSystem :=
  ⟨fun _ => true,
   fun p => if p == "themes.d/MANIFEST" then some ["", "a b c"] else none,
   fun _ => some [1, 2, 3]⟩

/-- Witness for C5: the unreadable manifest yields `False`; the
malformed line raises. -/
theorem validate_theme_error_handling_witness :
    validate_theme fsUnreadable shaStub "themes.d" "MANIFEST" "themes.d/x" = .ok false ∧
    validate_theme fsMalformed shaStub "themes.d" "MANIFEST" "themes.d/x" = .error .valueError :=
  ⟨validate_theme_error_handling.1 fsUnreadable shaStub "themes.d" "MANIFEST"
      "themes.d/x" (by decide) (by decide),
   validate_theme_error_handling.2 fsMalformed shaStub "themes.d" "MANIFEST"
      "themes.d/x" "a b c" [""] [] (by decide) (by decide) (by decide)
      (by decide) (by decide)⟩

/-! ## Claims about the escape code builder -/

/-- The state `AnsiEscapeCodeBuilder('dark')` constructs: no styles, the
dark theme's default color tokens, negative off. -/
def darkBuilder : AnsiEscapeCodeBuilder :=
  ⟨[], some "38;2;224;224;224", some "48;2;30;30;30", "dark", false⟩

/-- The state `AnsiEscapeCodeBuilder('light')` constructs. -/
def lightBuilder : AnsiEscapeCodeBuilder :=
  ⟨[], some "38;2;46;46;46", some "48;2;240;240;240", "light", false⟩

/-- C2 as stated is false on the code: the constructor installs default
colors for both channels, so after `set_fg_color(rgb=(1,2,3))` on a
fresh dark builder, `build()` does not return `"\x1B[38;2;1;2;3m"` —
the output retains a background token. -/
theorem build_fg_only_counterexample :
    mkBuilder "dark" = .ok darkBuilder ∧
    (set_fg_color darkBuilder none (some (1, 2, 3))).2 = none ∧
    (build ((set_fg_color darkBuilder none (some (1, 2, 3))).1)).2 ≠ "\x1B[38;2;1;2;3m" := by
  decide

/-- C2 amended: on a freshly constructed dark builder with only
`set_fg_color(rgb=(1,2,3))` called, `build()` returns exactly
`"\x1B[38;2;1;2;3;48;2;30;30;30m"` — the foreground token `38;2;1;2;3`
followed by the background token `48;2;30;30;30` installed by the
constructor from the dark theme's defaults. -/
theorem build_fg_only_keeps_default_bg :
    mkBuilder "dark" = .ok darkBuilder ∧
    (set_fg_color darkBuilder none (some (1, 2, 3))).2 = none ∧
    (build ((set_fg_color darkBuilder none (some (1, 2, 3))).1)).2 =
      "\x1B[38;2;1;2;3;48;2;30;30;30m" := by
  decide

/-- C10: `set_theme` with a name outside `DEFAULT_COLORS` raises
non-atomically — the returned state carries the invalid theme tag while
both color tokens keep their previous values, alongside the
invalid-theme error. -/
theorem set_theme_invalid_non_atomic (b : AnsiEscapeCodeBuilder) (t : String)
    (h : DEFAULT_COLORS t = none) :
    (set_theme b t).2 = some .unsupportedTheme ∧
    (set_theme b t).1.theme = t ∧
    (set_theme b t).1.fg_color = b.fg_color ∧
    (set_theme b t).1.bg_color = b.bg_color := by
  unfold set_theme set_default_colors
  simp [h]

/-- Witness for C10 at the unknown theme name `"solarized"` on a fresh
dark builder. -/
theorem set_theme_invalid_non_atomic_witness :
    (set_theme darkBuilder "solarized").2 = some .unsupportedTheme ∧
    (set_theme darkBuilder "solarized").1.theme = "solarized" ∧
    (set_theme darkBuilder "solarized").1.fg_color = darkBuilder.fg_color ∧
    (set_theme darkBuilder "solarized").1.bg_color = darkBuilder.bg_color :=
  set_theme_invalid_non_atomic darkBuilder "solarized" (by decide)

/-- C8: hex normalization maps `"#fff"` and `"#ffffff"` to (255,255,255)
and `"#072448"` to (7,36,72); and for any string starting with `#`, if
the residue after stripping leading `#` characters has length other
than 3 or 6, normalization fails with the invalid-hex-format error. -/
theorem normalize_color_hex_spec :
    normalize_color "#fff" = .ok (255, 255, 255) ∧
    normalize_color "#ffffff" = .ok (255, 255, 255) ∧
    normalize_color "#072448" = .ok (7, 36, 72) ∧
    (∀ (s : String) (rest : List Char), s.data = '#' :: rest →
      (rest.dropWhile (fun c => c = '#')).length ≠ 3 →
      (rest.dropWhile (fun c => c = '#')).length ≠ 6 →
      normalize_color s = .error .invalidHexFormat) := by
  refine ⟨by decide, by decide, by decide, ?_⟩
  intro s rest hdata h3 h6
  cases s with
  | mk data =>
    simp only [String.data] at hdata
    subst hdata
    unfold normalize_color
    simp only []
    rw [if_neg h6, if_neg h3]

/-- Witness for C8's length clause at the 4-digit string `"#ffff"`. -/
theorem normalize_color_hex_spec_witness :
    normalize_color "#ffff" = .error .invalidHexFormat :=
  normalize_color_hex_spec.2.2.2 "#ffff" ['f', 'f', 'f', 'f'] rfl
    (by decide) (by decide)

/-- C9: HSL normalization parses `hsl(H,S%,L%)` into float components,
divides H by 360 and the percent-stripped S, L by 100, applies the
standard HSL→RGB transform (`colorsys.hls_to_rgb`), and scales each
channel by 255 with truncation toward zero; in particular
`"hsl(0,100%,50%)"` yields (255,0,0), and `"hsl(0,0%,50%)"` yields
(127,127,127) — 127.5 truncates to 127 where rounding would give 128. -/
theorem normalize_color_hsl_spec :
    normalize_color "hsl(0,100%,50%)" = .ok (255, 0, 0) ∧
    normalize_color "hsl(0,0%,50%)" = .ok (127, 127, 127) ∧
    pyInt ⟨255, 2⟩ = 127 ∧
    (∀ (s : String) (inner hS sS lS : List Char) (r : List (List Char)) (h sa l : Frac),
      s.data = 'h' :: 's' :: 'l' :: '(' :: inner →
      splitChar ',' inner.dropLast = hS :: sS :: lS :: r →
      parsePyFloat hS = some h →
      parsePyFloat (stripPercent sS) = some sa →
      parsePyFloat (stripPercent lS) = some l →
      normalize_color s = .ok (hslPipeline h sa l)) := by
  refine ⟨by decide, by decide, by decide, ?_⟩
  intro s inner hS sS lS r h sa l hdata hsplit hh hs hl
  cases s with
  | mk data =>
    simp only [String.data] at hdata
    subst hdata
    unfold normalize_color
    simp only []
    rw [hsplit]
    simp [hh, hs, hl]

/-- Witness for C9's decomposition clause at `"hsl(120,50%,50%)"`. -/
theorem normalize_color_hsl_spec_witness :
    normalize_color "hsl(120,50%,50%)" =
      .ok (hslPipeline ⟨120, 1⟩ ⟨50, 1⟩ ⟨50, 1⟩) :=
  normalize_color_hsl_spec.2.2.2 "hsl(120,50%,50%)"
    ['1', '2', '0', ',', '5', '0', '%', ',', '5', '0', '%', ')']
    ['1', '2', '0'] ['5', '0', '%'] ['5', '0', '%'] [] ⟨120, 1⟩ ⟨50, 1⟩ ⟨50, 1⟩
    rfl (by decide) (by decide) (by decide) (by decide)

/-- C3 as stated is false on the code: on a reachable builder (fresh
dark builder with `set_negative(True)` applied), `build()` changes the
stored foreground token. -/
theorem builder_color_invariant_counterexample :
    mkBuilder "dark" = .ok darkBuilder ∧
    (build (set_negative darkBuilder true)).1.fg_color ≠
      (set_negative darkBuilder true).fg_color := by
  decide

/-- C3 amended: the fg/bg tokens are populated with theme defaults at
construction, are untouched by the style setters, `set_negative`, and
by `build()` while the negative flag is unset — but `build()` with the
negative flag set swaps the two stored tokens in place (the only
mutation beyond the explicit color setters and theme switch). -/
theorem builder_color_invariant_amended :
    (mkBuilder "dark" = .ok darkBuilder ∧
     darkBuilder.fg_color = some "38;2;224;224;224" ∧
     darkBuilder.bg_color = some "48;2;30;30;30") ∧
    (mkBuilder "light" = .ok lightBuilder ∧
     lightBuilder.fg_color = some "38;2;46;46;46" ∧
     lightBuilder.bg_color = some "48;2;240;240;240") ∧
    (∀ (b : AnsiEscapeCodeBuilder) (e : Bool),
      (set_bold b e).fg_color = b.fg_color ∧ (set_bold b e).bg_color = b.bg_color) ∧
    (∀ (b : AnsiEscapeCodeBuilder) (e : Bool),
      (set_italic b e).fg_color = b.fg_color ∧ (set_italic b e).bg_color = b.bg_color) ∧
    (∀ (b : AnsiEscapeCodeBuilder) (e : Bool),
      (set_underline b e).fg_color = b.fg_color ∧ (set_underline b e).bg_color = b.bg_color) ∧
    (∀ (b : AnsiEscapeCodeBuilder) (e : Bool),
      (set_negative b e).fg_color = b.fg_color ∧ (set_negative b e).bg_color = b.bg_color) ∧
    (∀ b : AnsiEscapeCodeBuilder, b.negative = false → (build b).1 = b) ∧
    (∀ b : AnsiEscapeCodeBuilder, b.negative = true →
      (build b).1.fg_color = b.bg_color ∧ (build b).1.bg_color = b.fg_color) := by
  refine ⟨⟨by decide, by decide, by decide⟩, ⟨by decide, by decide, by decide⟩,
    ?_, ?_, ?_, ?_, ?_, ?_⟩
  · intro b e
    exact ⟨rfl, rfl⟩
  · intro b e
    exact ⟨rfl, rfl⟩
  · intro b e
    exact ⟨rfl, rfl⟩
  · intro b e
    exact ⟨rfl, rfl⟩
  · intro b h
    unfold build
    rw [h]
    rfl
  · intro b h
    unfold build
    rw [h]
    exact ⟨rfl, rfl⟩

/-- Witness for C3's amended invariant: `build()` on the fresh dark
builder (negative unset) returns the state unchanged. -/
theorem builder_color_invariant_amended_witness :
    (build darkBuilder).1 = darkBuilder :=
  builder_color_invariant_amended.2.2.2.2.2.2.1 darkBuilder rfl

/-! ## C4: the in-place fg/bg swap makes `build` non-idempotent -/

lemma fgToken_data (r g b : Int) :
    (fgToken r g b).data =
      '3' :: '8' :: ';' :: '2' :: ';' ::
        ((toString r).data ++ ';' :: (toString g).data ++ ';' :: (toString b).data) := by
  unfold fgToken
  simp [data_append, show (";" : String).data = [';'] from rfl,
    show ("38;2;" : String).data = ['3', '8', ';', '2', ';'] from rfl]

lemma bgToken_data (r g b : Int) :
    (bgToken r g b).data =
      '4' :: '8' :: ';' :: '2' :: ';' ::
        ((toString r).data ++ ';' :: (toString g).data ++ ';' :: (toString b).data) := by
  unfold bgToken
  simp [data_append, show (";" : String).data = [';'] from rfl,
    show ("48;2;" : String).data = ['4', '8', ';', '2', ';'] from rfl]

lemma optStrTruthy_fgToken (r g b : Int) : optStrTruthy (some (fgToken r g b)) = true := by
  simp [optStrTruthy, fgToken_data]

lemma optStrTruthy_bgToken (r g b : Int) : optStrTruthy (some (bgToken r g b)) = true := by
  simp [optStrTruthy, bgToken_data]

/-- A builder state holding two color tokens with the negative flag set. -/
def negBuilder (st : List String) (th : String) (f g : String) : AnsiEscapeCodeBuilder :=
  ⟨st, some f, some g, th, true⟩

lemma build_negBuilder (st : List String) (th f g : String)
    (hft : optStrTruthy (some f) = true) (hgt : optStrTruthy (some g) = true) :
    build (negBuilder st th f g) =
      (negBuilder st th g f, "\x1B[" ++ pyJoin ";" (g :: f :: st) ++ "m") := by
  unfold build negBuilder
  simp [hft, hgt]

/-- C4: for every builder holding a stored foreground and background
true-color token with the negative flag set, two successive `build()`
calls return different strings, the first listing background before
foreground and the second foreground before background, while the
stored tokens toggle correspondingly between the two returned states. -/
theorem build_negative_not_idempotent (st : List String) (th : String)
    (r1 g1 bl1 r2 g2 bl2 : Int) :
    (build (negBuilder st th (fgToken r1 g1 bl1) (bgToken r2 g2 bl2))).1 =
      negBuilder st th (bgToken r2 g2 bl2) (fgToken r1 g1 bl1) ∧
    (build (negBuilder st th (fgToken r1 g1 bl1) (bgToken r2 g2 bl2))).2 =
      "\x1B[" ++ pyJoin ";" (bgToken r2 g2 bl2 :: fgToken r1 g1 bl1 :: st) ++ "m" ∧
    (build ((build (negBuilder st th (fgToken r1 g1 bl1) (bgToken r2 g2 bl2))).1)).1 =
      negBuilder st th (fgToken r1 g1 bl1) (bgToken r2 g2 bl2) ∧
    (build ((build (negBuilder st th (fgToken r1 g1 bl1) (bgToken r2 g2 bl2))).1)).2 =
      "\x1B[" ++ pyJoin ";" (fgToken r1 g1 bl1 :: bgToken r2 g2 bl2 :: st) ++ "m" ∧
    (build (negBuilder st th (fgToken r1 g1 bl1) (bgToken r2 g2 bl2))).2 ≠
      (build ((build (negBuilder st th (fgToken r1 g1 bl1) (bgToken r2 g2 bl2))).1)).2 := by
  have h1 := build_negBuilder st th (fgToken r1 g1 bl1) (bgToken r2 g2 bl2)
    (optStrTruthy_fgToken r1 g1 bl1) (optStrTruthy_bgToken r2 g2 bl2)
  have h2 := build_negBuilder st th (bgToken r2 g2 bl2) (fgToken r1 g1 bl1)
    (optStrTruthy_bgToken r2 g2 bl2) (optStrTruthy_fgToken r1 g1 bl1)
  refine ⟨by rw [h1], by rw [h1], by rw [h1, h2], by rw [h1, h2], ?_⟩
  rw [h1, h2]
  intro heq
  rw [pyJoin_cons_cons, pyJoin_cons_cons] at heq
  have hd := congrArg String.data heq
  simp only [data_append] at hd
  rw [bgToken_data, fgToken_data] at hd
  simp only [List.cons_append, List.append_assoc, List.nil_append] at hd
  injection hd with ha hd
  injection hd with hb hd
  injection hd with hc hd
  exact absurd hc (by decide)

/-- Witness for C4 at concrete tokens: two successive `build()` calls on
a negative-mode builder return different strings. -/
theorem build_negative_not_idempotent_witness :
    (build (negBuilder [] "dark" (fgToken 1 2 3) (bgToken 4 5 6))).2 ≠
      (build ((build (negBuilder [] "dark" (fgToken 1 2 3) (bgToken 4 5 6))).1)).2 :=
  (build_negative_not_idempotent [] "dark" 1 2 3 4 5 6).2.2.2.2

end Huefy
